import Mathlib

/-!
Verification of the state-translation and validation layer of a spa
home-automation plugin: a thermostat controller
(`src/thermostatAccessory.ts`) and a pump speed controller
(`src/pumpAccessory.ts`), each wrapping an external device-state oracle.

Temperatures and characteristic percentages are modelled as rationals
(every numeric literal involved is exactly representable), characteristic
enum values and discrete pump speeds as integers, and the device oracle as
an explicit state record threaded through each operation.
-/

/-- Modelled from the spec: the water-flow health vocabulary of the device
oracle (the `spaClient` module providing `FLOW_GOOD`/`FLOW_FAILED` is not
among the provided sources; per the spec, `FlowState` is one of `Good` or
`Failed`). -/
inductive FlowState where
  | good
  | failed
deriving DecidableEq

/-- Modelled from the spec: the `FLOW_GOOD` constant imported from the
device-driver module. -/
def FLOW_GOOD : FlowState := FlowState.good

/-- Modelled from the spec: the `FLOW_FAILED` constant imported from the
device-driver module. -/
def FLOW_FAILED : FlowState := FlowState.failed

/-- The framework's `TargetHeatingCoolingState.OFF` enum value. -/
def Characteristic.TargetHeatingCoolingState.OFF : ℤ := 0

/-- The framework's `TargetHeatingCoolingState.HEAT` enum value. -/
def Characteristic.TargetHeatingCoolingState.HEAT : ℤ := 1

/-- The framework's `TargetHeatingCoolingState.COOL` enum value. -/
def Characteristic.TargetHeatingCoolingState.COOL : ℤ := 2

/-- Modelled from the spec: the slice of the device oracle the thermostat
controller touches. `retargetOnMode` stands for the physical device's
autonomous setpoint re-targeting on a mode change (spec §4.2/§5); the
controller never computes it, it only re-reads the result. -/
structure SpaOracle where
  tempRangeIsHigh : Bool
  flowState : FlowState
  targetTemp : ℚ
  retargetOnMode : Bool → ℚ → ℚ

/-- Modelled from the spec: oracle accessor `getTempRangeIsHigh`. -/
def SpaOracle.getTempRangeIsHigh (spa : SpaOracle) : Bool :=
  spa.tempRangeIsHigh

/-- Modelled from the spec: oracle accessor `getFlowState`. -/
def SpaOracle.getFlowState (spa : SpaOracle) : FlowState :=
  spa.flowState

/-- Modelled from the spec: oracle accessor `getTargetTemp`. -/
def SpaOracle.getTargetTemp (spa : SpaOracle) : ℚ :=
  spa.targetTemp

/-- Modelled from the spec: oracle mutator `setTargetTemperature`. -/
def SpaOracle.setTargetTemperature (spa : SpaOracle) (t : ℚ) : SpaOracle :=
  { spa with targetTemp := t }

/-- Modelled from the spec: oracle mutator `setTempRangeIsHigh`; the device
autonomously adjusts its target temperature when the range changes. -/
def SpaOracle.setTempRangeIsHigh (spa : SpaOracle) (b : Bool) : SpaOracle :=
  { spa with tempRangeIsHigh := b, targetTemp := spa.retargetOnMode b spa.targetTemp }

/-- Outcome of a thermostat SET handler: the oracle state afterwards, the
error passed to the framework callback (`none` = success), and the value, if
any, pushed to the framework's `TargetTemperature` characteristic through
`updateValue`. -/
structure SetResult where
  spa : SpaOracle
  err : Option String
  published : Option ℚ

/-- `ThermostatAccessory.getTargetHeatingState` (thermostatAccessory.ts,
lines 123-138): flow failure forces `OFF`; otherwise high range maps to
`HEAT` and low range to `COOL`. -/
def ThermostatAccessory.getTargetHeatingState (spa : SpaOracle) : ℤ :=
  let mode := spa.getTempRangeIsHigh
  let flowError := spa.getFlowState = FLOW_FAILED
  if flowError then
    Characteristic.TargetHeatingCoolingState.OFF
  else if mode then
    Characteristic.TargetHeatingCoolingState.HEAT
  else
    Characteristic.TargetHeatingCoolingState.COOL

/-- `ThermostatAccessory.setTargetHeatingState` (thermostatAccessory.ts,
lines 140-168). `OFF` while flow is good is rejected; a non-`OFF` value
while flow has failed is rejected; otherwise `HEAT` maps to the high range
and anything else to the low range, and the (possibly auto-adjusted) target
temperature is re-read from the oracle and republished. -/
def ThermostatAccessory.setTargetHeatingState (spa : SpaOracle) (value : ℤ) : SetResult :=
  let proceed : SetResult :=
    let heating := value == Characteristic.TargetHeatingCoolingState.HEAT
    let spa' := spa.setTempRangeIsHigh heating
    { spa := spa', err := none, published := some spa'.getTargetTemp }
  if value = Characteristic.TargetHeatingCoolingState.OFF then
    if spa.getFlowState = FLOW_GOOD then
      { spa := spa, err := some "Spa doesn't allow turned heating off. Reverting.",
        published := none }
    else
      proceed
  else if spa.getFlowState = FLOW_FAILED then
    { spa := spa, err := some "Water flow has failed. Heating off", published := none }
  else
    proceed

/-- `ThermostatAccessory.getTargetTemperature` (thermostatAccessory.ts,
lines 170-175): pass-through of the oracle's target temperature. -/
def ThermostatAccessory.getTargetTemperature (spa : SpaOracle) : ℚ :=
  spa.getTargetTemp

/-- `ThermostatAccessory.setTargetTemperature` (thermostatAccessory.ts,
lines 177-207): mode-dependent bounds check with clamp-republish-reject on
violation, plain oracle write on success. -/
def ThermostatAccessory.setTargetTemperature (spa : SpaOracle) (value : ℚ) : SetResult :=
  let temp := value
  if spa.getTempRangeIsHigh then
    if temp < 26.5 then
      { spa := spa, err := some "Temperature out of bounds [26.5,40.0]",
        published := some (26.5 : ℚ) }
    else
      { spa := spa.setTargetTemperature temp, err := none, published := none }
  else
    if temp > 36.0 then
      { spa := spa, err := some "Temperature out of bounds [10.0,36.0]",
        published := some (36.0 : ℚ) }
    else
      { spa := spa.setTargetTemperature temp, err := none, published := none }

/-- Modelled from the spec: the slice of the device oracle the pump
controller touches — one level string per physical pump (`get_pump1`..`3`,
`set_pump1`..`3`). The oracle holds whatever string was last written. -/
structure PumpOracle where
  pump1 : String
  pump2 : String
  pump3 : String

/-- The level vocabulary of `PumpAccessory` (pumpAccessory.ts, line 21):
`this.speeds = ["Off", "Low", "High"]`. -/
def speeds : List String := ["Off", "Low", "High"]

/-- JavaScript array read `l[i]`: out-of-range access yields `undefined`,
represented here by the string "undefined". -/
def jsIndex (l : List String) (i : ℤ) : String :=
  if 0 ≤ i ∧ i < l.length then l.getD i.toNat "undefined" else "undefined"

/-- JavaScript `Array.prototype.indexOf` (returns -1 when absent),
accumulator form. -/
def jsIndexOfAux (l : List String) (s : String) (i : ℤ) : ℤ :=
  match l with
  | [] => -1
  | x :: xs => if x = s then i else jsIndexOfAux xs s (i + 1)

/-- JavaScript `l.indexOf(s)`. -/
def jsIndexOf (l : List String) (s : String) : ℤ :=
  jsIndexOfAux l s 0

/-- JavaScript `Math.round`: round to nearest, ties toward positive
infinity. -/
def jsRound (q : ℚ) : ℤ :=
  ⌊q + 1 / 2⌋

/-- The mutable state of one `PumpAccessory` instance: which physical pump
it drives, the validated speed-setting count, and the sticky
`states.lastSpeed` memory (pumpAccessory.ts, lines 16-23). -/
structure PumpAcc where
  pumpNumber : ℤ
  speedSettings : ℤ
  lastSpeed : ℤ

/-- The state-relevant part of the `PumpAccessory` constructor
(pumpAccessory.ts, lines 44-48): take `speedSettings` from the configured
`pumpRange`, correcting anything other than 1 or 2 to 1 (with a warning);
`lastSpeed` starts at 2. -/
def PumpAccessory.construct (pumpNumber pumpRange : ℤ) : PumpAcc :=
  let speedSettings := if pumpRange ≠ 1 ∧ pumpRange ≠ 2 then 1 else pumpRange
  { pumpNumber := pumpNumber, speedSettings := speedSettings, lastSpeed := 2 }

/-- `PumpAccessory.setSpeed` (pumpAccessory.ts, lines 146-157): write
`speeds[speed]` to the oracle slot for this pump number (1..3; anything
else writes nowhere), then remember `speed` in `lastSpeed` when non-zero. -/
def PumpAccessory.setSpeed (p : PumpAcc) (o : PumpOracle) (speed : ℤ) : PumpAcc × PumpOracle :=
  let o' :=
    if p.pumpNumber = 1 then { o with pump1 := jsIndex speeds speed }
    else if p.pumpNumber = 2 then { o with pump2 := jsIndex speeds speed }
    else if p.pumpNumber = 3 then { o with pump3 := jsIndex speeds speed }
    else o
  let p' := if speed ≠ 0 then { p with lastSpeed := speed } else p
  (p', o')

/-- `PumpAccessory.getSpeed` (pumpAccessory.ts, lines 134-144): read the
oracle string for this pump number and translate it back to a level via
`speeds.indexOf`; an unrecognized pump number reads as 0. -/
def PumpAccessory.getSpeed (p : PumpAcc) (o : PumpOracle) : ℤ :=
  if p.pumpNumber = 1 then jsIndexOf speeds o.pump1
  else if p.pumpNumber = 2 then jsIndexOf speeds o.pump2
  else if p.pumpNumber = 3 then jsIndexOf speeds o.pump3
  else 0

/-- `PumpAccessory.setOn` (pumpAccessory.ts, lines 66-78): on-toggle
replays `states.lastSpeed`, off-toggle sets speed 0. -/
def PumpAccessory.setOn (p : PumpAcc) (o : PumpOracle) (value : Bool) : PumpAcc × PumpOracle :=
  if value then PumpAccessory.setSpeed p o p.lastSpeed
  else PumpAccessory.setSpeed p o 0

/-- `PumpAccessory.getOn` (pumpAccessory.ts, lines 93-104). -/
def PumpAccessory.getOn (p : PumpAcc) (o : PumpOracle) : Bool :=
  PumpAccessory.getSpeed p o != 0

/-- `PumpAccessory.setRotationSpeed` (pumpAccessory.ts, lines 110-119):
`speed = Math.round(value * speedSettings / 100)`, then `setSpeed`. -/
def PumpAccessory.setRotationSpeed (p : PumpAcc) (o : PumpOracle) (value : ℚ) : PumpAcc × PumpOracle :=
  let speed := jsRound (value * (p.speedSettings : ℚ) / 100)
  PumpAccessory.setSpeed p o speed

/-- `PumpAccessory.getRotationSpeed` (pumpAccessory.ts, lines 125-132):
`100 * speed / speedSettings` as a percentage. -/
def PumpAccessory.getRotationSpeed (p : PumpAcc) (o : PumpOracle) : ℚ :=
  let speed := PumpAccessory.getSpeed p o
  (100 * (speed : ℚ)) / (p.speedSettings : ℚ)

/-- The oracle string held for pump number `n` (1..3). -/
def PumpOracle.getPump (o : PumpOracle) (n : ℤ) : String :=
  if n = 1 then o.pump1
  else if n = 2 then o.pump2
  else if n = 3 then o.pump3
  else "undefined"

/-- A concrete oracle: high temperature range, good flow, target 38°C,
identity auto-retarget. -/
def spaHG : SpaOracle :=
  { tempRangeIsHigh := true, flowState := FLOW_GOOD, targetTemp := 38,
    retargetOnMode := fun _ t => t }

/-- A concrete oracle: low temperature range, good flow, target 30°C. -/
def spaLG : SpaOracle :=
  { tempRangeIsHigh := false, flowState := FLOW_GOOD, targetTemp := 30,
    retargetOnMode := fun _ t => t }

/-- A concrete oracle: high temperature range, failed flow, target 38°C. -/
def spaHF : SpaOracle :=
  { tempRangeIsHigh := true, flowState := FLOW_FAILED, targetTemp := 38,
    retargetOnMode := fun _ t => t }

/-- C1: an out-of-bounds target-temperature request (below 26.5 in the high
range, above 36.0 in the low range) republishes the clamped bound, returns
an error, and leaves the oracle — in particular its stored target
temperature — untouched. -/
theorem setTargetTemperature_rejects_out_of_bounds (spa : SpaOracle) (v : ℚ) :
    (spa.getTempRangeIsHigh = true → v < 26.5 →
      (ThermostatAccessory.setTargetTemperature spa v).published = some (26.5 : ℚ) ∧
      (ThermostatAccessory.setTargetTemperature spa v).err ≠ none ∧
      (ThermostatAccessory.setTargetTemperature spa v).spa = spa) ∧
    (spa.getTempRangeIsHigh = false → (36.0 : ℚ) < v →
      (ThermostatAccessory.setTargetTemperature spa v).published = some (36.0 : ℚ) ∧
      (ThermostatAccessory.setTargetTemperature spa v).err ≠ none ∧
      (ThermostatAccessory.setTargetTemperature spa v).spa = spa) := by
  constructor
  · intro hmode hv
    simp [ThermostatAccessory.setTargetTemperature, hmode, hv]
  · intro hmode hv
    simp [ThermostatAccessory.setTargetTemperature, hmode, hv]

/-- Witness for C1 at the spec's concrete inputs: 20.0 in the high range
and 37.0 in the low range. -/
theorem setTargetTemperature_rejects_out_of_bounds_witness :
    (spaHG.getTempRangeIsHigh = true ∧ (20 : ℚ) < 26.5 ∧
      (ThermostatAccessory.setTargetTemperature spaHG 20).published = some (26.5 : ℚ) ∧
      (ThermostatAccessory.setTargetTemperature spaHG 20).err ≠ none ∧
      (ThermostatAccessory.setTargetTemperature spaHG 20).spa = spaHG) ∧
    (spaLG.getTempRangeIsHigh = false ∧ (36.0 : ℚ) < 37 ∧
      (ThermostatAccessory.setTargetTemperature spaLG 37).published = some (36.0 : ℚ) ∧
      (ThermostatAccessory.setTargetTemperature spaLG 37).err ≠ none ∧
      (ThermostatAccessory.setTargetTemperature spaLG 37).spa = spaLG) :=
  ⟨⟨rfl, by norm_num,
    (setTargetTemperature_rejects_out_of_bounds spaHG 20).1 rfl (by norm_num)⟩,
   ⟨rfl, by norm_num,
    (setTargetTemperature_rejects_out_of_bounds spaLG 37).2 rfl (by norm_num)⟩⟩

/-- C2: requesting heating state `OFF` while the oracle reports good flow
is rejected with an error and performs no mutation: the oracle (hence the
heating mode) is unchanged. -/
theorem setTargetHeatingState_off_rejected_when_flow_good (spa : SpaOracle)
    (h : spa.getFlowState = FLOW_GOOD) :
    (ThermostatAccessory.setTargetHeatingState spa
        Characteristic.TargetHeatingCoolingState.OFF).err ≠ none ∧
    (ThermostatAccessory.setTargetHeatingState spa
        Characteristic.TargetHeatingCoolingState.OFF).spa = spa := by
  simp [ThermostatAccessory.setTargetHeatingState, h]

/-- Witness for C2 at a concrete good-flow oracle. -/
theorem setTargetHeatingState_off_rejected_when_flow_good_witness :
    spaHG.getFlowState = FLOW_GOOD ∧
    (ThermostatAccessory.setTargetHeatingState spaHG
        Characteristic.TargetHeatingCoolingState.OFF).err ≠ none ∧
    (ThermostatAccessory.setTargetHeatingState spaHG
        Characteristic.TargetHeatingCoolingState.OFF).spa = spaHG :=
  ⟨rfl, setTargetHeatingState_off_rejected_when_flow_good spaHG rfl⟩

/-- C3: requesting heating state `HEAT` or `COOL` while the oracle reports
failed flow is rejected with an error and leaves the oracle — hence the
heating mode — unchanged. -/
theorem setTargetHeatingState_rejected_when_flow_failed (spa : SpaOracle) (v : ℤ)
    (hv : v = Characteristic.TargetHeatingCoolingState.HEAT ∨
          v = Characteristic.TargetHeatingCoolingState.COOL)
    (h : spa.getFlowState = FLOW_FAILED) :
    (ThermostatAccessory.setTargetHeatingState spa v).err ≠ none ∧
    (ThermostatAccessory.setTargetHeatingState spa v).spa = spa := by
  rcases hv with rfl | rfl <;>
    simp [ThermostatAccessory.setTargetHeatingState, h,
      Characteristic.TargetHeatingCoolingState.OFF,
      Characteristic.TargetHeatingCoolingState.HEAT,
      Characteristic.TargetHeatingCoolingState.COOL]

/-- Witness for C3 at a concrete failed-flow oracle with a `HEAT` request. -/
theorem setTargetHeatingState_rejected_when_flow_failed_witness :
    (Characteristic.TargetHeatingCoolingState.HEAT =
        Characteristic.TargetHeatingCoolingState.HEAT ∨
      Characteristic.TargetHeatingCoolingState.HEAT =
        Characteristic.TargetHeatingCoolingState.COOL) ∧
    spaHF.getFlowState = FLOW_FAILED ∧
    (ThermostatAccessory.setTargetHeatingState spaHF
        Characteristic.TargetHeatingCoolingState.HEAT).err ≠ none ∧
    (ThermostatAccessory.setTargetHeatingState spaHF
        Characteristic.TargetHeatingCoolingState.HEAT).spa = spaHF :=
  ⟨Or.inl rfl, rfl,
    setTargetHeatingState_rejected_when_flow_failed spaHF
      Characteristic.TargetHeatingCoolingState.HEAT (Or.inl rfl) rfl⟩

/-- C4: the reported target heating state is `OFF` whenever flow has
failed, regardless of mode; with good flow it is `HEAT` in the high range
and `COOL` in the low range. -/
theorem getTargetHeatingState_table (spa : SpaOracle) :
    (spa.getFlowState = FLOW_FAILED →
      ThermostatAccessory.getTargetHeatingState spa =
        Characteristic.TargetHeatingCoolingState.OFF) ∧
    (spa.getFlowState = FLOW_GOOD → spa.getTempRangeIsHigh = true →
      ThermostatAccessory.getTargetHeatingState spa =
        Characteristic.TargetHeatingCoolingState.HEAT) ∧
    (spa.getFlowState = FLOW_GOOD → spa.getTempRangeIsHigh = false →
      ThermostatAccessory.getTargetHeatingState spa =
        Characteristic.TargetHeatingCoolingState.COOL) := by
  refine ⟨fun h => ?_, fun h hm => ?_, fun h hm => ?_⟩
  · simp [ThermostatAccessory.getTargetHeatingState, h]
  · simp [ThermostatAccessory.getTargetHeatingState, h, hm, FLOW_GOOD, FLOW_FAILED]
  · simp [ThermostatAccessory.getTargetHeatingState, h, hm, FLOW_GOOD, FLOW_FAILED]

/-- Witness for C4 at three concrete oracles, one per table row. -/
theorem getTargetHeatingState_table_witness :
    (spaHF.getFlowState = FLOW_FAILED ∧
      ThermostatAccessory.getTargetHeatingState spaHF =
        Characteristic.TargetHeatingCoolingState.OFF) ∧
    (spaHG.getFlowState = FLOW_GOOD ∧ spaHG.getTempRangeIsHigh = true ∧
      ThermostatAccessory.getTargetHeatingState spaHG =
        Characteristic.TargetHeatingCoolingState.HEAT) ∧
    (spaLG.getFlowState = FLOW_GOOD ∧ spaLG.getTempRangeIsHigh = false ∧
      ThermostatAccessory.getTargetHeatingState spaLG =
        Characteristic.TargetHeatingCoolingState.COOL) :=
  ⟨⟨rfl, (getTargetHeatingState_table spaHF).1 rfl⟩,
   ⟨rfl, rfl, (getTargetHeatingState_table spaHG).2.1 rfl rfl⟩,
   ⟨rfl, rfl, (getTargetHeatingState_table spaLG).2.2 rfl rfl⟩⟩

/-- C8: a target-temperature request inside the current mode's bounds is
written unchanged to the oracle, succeeds without error, and a subsequent
`getTargetTemperature` against the resulting oracle returns the same
value. -/
theorem setTargetTemperature_in_bounds_succeeds (spa : SpaOracle) (v : ℚ)
    (h : (spa.getTempRangeIsHigh = true ∧ (26.5 : ℚ) ≤ v) ∨
         (spa.getTempRangeIsHigh = false ∧ v ≤ (36.0 : ℚ))) :
    (ThermostatAccessory.setTargetTemperature spa v).err = none ∧
    (ThermostatAccessory.setTargetTemperature spa v).spa = spa.setTargetTemperature v ∧
    ThermostatAccessory.getTargetTemperature
      (ThermostatAccessory.setTargetTemperature spa v).spa = v := by
  rcases h with ⟨hm, hv⟩ | ⟨hm, hv⟩ <;>
    simp [ThermostatAccessory.setTargetTemperature,
      ThermostatAccessory.getTargetTemperature, SpaOracle.setTargetTemperature,
      SpaOracle.getTargetTemp, hm, not_lt.mpr hv]

/-- Witness for C8 at the spec's concrete input: 30.0 in the high range. -/
theorem setTargetTemperature_in_bounds_succeeds_witness :
    (spaHG.getTempRangeIsHigh = true ∧ (26.5 : ℚ) ≤ 30) ∧
    (ThermostatAccessory.setTargetTemperature spaHG 30).err = none ∧
    (ThermostatAccessory.setTargetTemperature spaHG 30).spa =
      spaHG.setTargetTemperature 30 ∧
    ThermostatAccessory.getTargetTemperature
      (ThermostatAccessory.setTargetTemperature spaHG 30).spa = 30 :=
  ⟨⟨rfl, by norm_num⟩,
    setTargetTemperature_in_bounds_succeeds spaHG 30 (Or.inl ⟨rfl, by norm_num⟩)⟩

/-- C10: requesting heating state `OFF` while flow has failed is the one
accepted `OFF` request — it succeeds without error, writes the low range to
the oracle (`setTempRangeIsHigh false`), and republishes the target
temperature re-read from the mutated oracle. -/
theorem setTargetHeatingState_off_accepted_when_flow_failed (spa : SpaOracle)
    (h : spa.getFlowState = FLOW_FAILED) :
    (ThermostatAccessory.setTargetHeatingState spa
        Characteristic.TargetHeatingCoolingState.OFF).err = none ∧
    (ThermostatAccessory.setTargetHeatingState spa
        Characteristic.TargetHeatingCoolingState.OFF).spa =
      spa.setTempRangeIsHigh false ∧
    (ThermostatAccessory.setTargetHeatingState spa
        Characteristic.TargetHeatingCoolingState.OFF).spa.tempRangeIsHigh = false ∧
    (ThermostatAccessory.setTargetHeatingState spa
        Characteristic.TargetHeatingCoolingState.OFF).published =
      some (spa.setTempRangeIsHigh false).getTargetTemp := by
  simp [ThermostatAccessory.setTargetHeatingState, h, FLOW_GOOD, FLOW_FAILED,
    Characteristic.TargetHeatingCoolingState.OFF,
    Characteristic.TargetHeatingCoolingState.HEAT,
    SpaOracle.setTempRangeIsHigh, SpaOracle.getTargetTemp]

/-- Witness for C10 at a concrete failed-flow oracle. -/
theorem setTargetHeatingState_off_accepted_when_flow_failed_witness :
    spaHF.getFlowState = FLOW_FAILED ∧
    ((ThermostatAccessory.setTargetHeatingState spaHF
        Characteristic.TargetHeatingCoolingState.OFF).err = none ∧
      (ThermostatAccessory.setTargetHeatingState spaHF
          Characteristic.TargetHeatingCoolingState.OFF).spa =
        spaHF.setTempRangeIsHigh false ∧
      (ThermostatAccessory.setTargetHeatingState spaHF
          Characteristic.TargetHeatingCoolingState.OFF).spa.tempRangeIsHigh = false ∧
      (ThermostatAccessory.setTargetHeatingState spaHF
          Characteristic.TargetHeatingCoolingState.OFF).published =
        some (spaHF.setTempRangeIsHigh false).getTargetTemp) :=
  ⟨rfl, setTargetHeatingState_off_accepted_when_flow_failed spaHF rfl⟩

/-- A concrete pump oracle with every pump reported `Off`. -/
def pumpsAllOff : PumpOracle :=
  { pump1 := "Off", pump2 := "Off", pump3 := "Off" }

/-- Reading back the level string written for a level in 0..2 recovers the
level: `speeds.indexOf(speeds[L]) = L`. -/
theorem jsIndexOf_jsIndex (L : ℤ) (h0 : 0 ≤ L) (h2 : L ≤ 2) :
    jsIndexOf speeds (jsIndex speeds L) = L := by
  have hL : L = 0 ∨ L = 1 ∨ L = 2 := by omega
  rcases hL with rfl | rfl | rfl <;> rfl

/-- `setSpeed` never touches `speedSettings`. -/
theorem setSpeed_fst_speedSettings (p : PumpAcc) (o : PumpOracle) (s : ℤ) :
    (PumpAccessory.setSpeed p o s).1.speedSettings = p.speedSettings := by
  simp [PumpAccessory.setSpeed, apply_ite PumpAcc.speedSettings]

/-- `setSpeed` never touches `pumpNumber`. -/
theorem setSpeed_fst_pumpNumber (p : PumpAcc) (o : PumpOracle) (s : ℤ) :
    (PumpAccessory.setSpeed p o s).1.pumpNumber = p.pumpNumber := by
  simp [PumpAccessory.setSpeed, apply_ite PumpAcc.pumpNumber]

/-- Reading a pump's speed right after writing a level in 0..2 to it
returns that level, for a recognized pump number. -/
theorem getSpeed_setSpeed (p : PumpAcc) (o : PumpOracle) (L : ℤ)
    (hn : p.pumpNumber = 1 ∨ p.pumpNumber = 2 ∨ p.pumpNumber = 3)
    (h0 : 0 ≤ L) (h2 : L ≤ 2) :
    PumpAccessory.getSpeed (PumpAccessory.setSpeed p o L).1
      (PumpAccessory.setSpeed p o L).2 = L := by
  rcases hn with h | h | h <;>
    simp [PumpAccessory.getSpeed, PumpAccessory.setSpeed, h,
      apply_ite PumpAcc.pumpNumber, jsIndexOf_jsIndex L h0 h2]

/-- `setOn` never touches `speedSettings`. -/
theorem setOn_fst_speedSettings (p : PumpAcc) (o : PumpOracle) (b : Bool) :
    (PumpAccessory.setOn p o b).1.speedSettings = p.speedSettings := by
  cases b <;> simp [PumpAccessory.setOn, setSpeed_fst_speedSettings]

/-- `setRotationSpeed` never touches `speedSettings`. -/
theorem setRotationSpeed_fst_speedSettings (p : PumpAcc) (o : PumpOracle) (q : ℚ) :
    (PumpAccessory.setRotationSpeed p o q).1.speedSettings = p.speedSettings := by
  simp [PumpAccessory.setRotationSpeed, setSpeed_fst_speedSettings]

/-- C9: after construction `speedSettings` is always 1 or 2; a configured
`pumpRange` that is neither 1 nor 2 is corrected to 1 specifically; and no
pump operation ever changes `speedSettings` afterwards. -/
theorem construct_speedSettings_invariant (pumpNumber pumpRange : ℤ) :
    ((PumpAccessory.construct pumpNumber pumpRange).speedSettings = 1 ∨
     (PumpAccessory.construct pumpNumber pumpRange).speedSettings = 2) ∧
    (pumpRange ≠ 1 ∧ pumpRange ≠ 2 →
      (PumpAccessory.construct pumpNumber pumpRange).speedSettings = 1) ∧
    (∀ (p : PumpAcc) (o : PumpOracle) (s : ℤ),
      (PumpAccessory.setSpeed p o s).1.speedSettings = p.speedSettings) ∧
    (∀ (p : PumpAcc) (o : PumpOracle) (b : Bool),
      (PumpAccessory.setOn p o b).1.speedSettings = p.speedSettings) ∧
    (∀ (p : PumpAcc) (o : PumpOracle) (q : ℚ),
      (PumpAccessory.setRotationSpeed p o q).1.speedSettings = p.speedSettings) := by
  refine ⟨?_, ?_, setSpeed_fst_speedSettings, setOn_fst_speedSettings,
    setRotationSpeed_fst_speedSettings⟩
  · by_cases h1 : pumpRange = 1
    · simp [PumpAccessory.construct, h1]
    · by_cases h2 : pumpRange = 2
      · simp [PumpAccessory.construct, h1, h2]
      · simp [PumpAccessory.construct, h1, h2]
  · intro h
    simp [PumpAccessory.construct, h.1, h.2]

/-- Witness for C9 at the concrete out-of-range configuration
`pumpRange = 5`: it is corrected to 1. -/
theorem construct_speedSettings_invariant_witness :
    ((5 : ℤ) ≠ 1 ∧ (5 : ℤ) ≠ 2) ∧
    ((PumpAccessory.construct 1 5).speedSettings = 1 ∨
      (PumpAccessory.construct 1 5).speedSettings = 2) ∧
    (PumpAccessory.construct 1 5).speedSettings = 1 :=
  ⟨⟨by decide, by decide⟩, (construct_speedSettings_invariant 1 5).1,
    (construct_speedSettings_invariant 1 5).2.1 ⟨by decide, by decide⟩⟩

/-- C5: the sticky last-speed memory. After a set that resolved to a
non-zero level `L`, an off-toggle followed by an on-toggle writes `L`'s
level string to the oracle again and `lastSpeed` still holds `L`; and a
freshly constructed pump (no prior non-zero set) writes level 2 (`High`)
on its first on-toggle, since `lastSpeed` defaults to 2. -/
theorem setOn_replays_lastSpeed (p : PumpAcc) (o : PumpOracle) (L : ℤ)
    (hL : L ≠ 0)
    (hn : p.pumpNumber = 1 ∨ p.pumpNumber = 2 ∨ p.pumpNumber = 3) :
    (let s1 := PumpAccessory.setSpeed p o L
     let s2 := PumpAccessory.setOn s1.1 s1.2 false
     let s3 := PumpAccessory.setOn s2.1 s2.2 true
     s2.1.lastSpeed = L ∧ s3.2.getPump p.pumpNumber = jsIndex speeds L) ∧
    (∀ (pumpRange : ℤ) (o2 : PumpOracle),
      (PumpAccessory.construct p.pumpNumber pumpRange).lastSpeed = 2 ∧
      (PumpAccessory.setOn (PumpAccessory.construct p.pumpNumber pumpRange) o2
          true).2.getPump p.pumpNumber = jsIndex speeds 2) := by
  rcases hn with h | h | h <;>
    simp [PumpAccessory.setOn, PumpAccessory.setSpeed, PumpAccessory.construct,
      PumpOracle.getPump, h, hL]

/-- Witness for C5: pump 1 with two speed settings, level set to 1 (`Low`),
toggled off and on. -/
theorem setOn_replays_lastSpeed_witness :
    ((1 : ℤ) ≠ 0 ∧
      ((PumpAccessory.construct 1 2).pumpNumber = 1 ∨
        (PumpAccessory.construct 1 2).pumpNumber = 2 ∨
        (PumpAccessory.construct 1 2).pumpNumber = 3)) ∧
    ((let s1 := PumpAccessory.setSpeed (PumpAccessory.construct 1 2) pumpsAllOff 1
      let s2 := PumpAccessory.setOn s1.1 s1.2 false
      let s3 := PumpAccessory.setOn s2.1 s2.2 true
      s2.1.lastSpeed = 1 ∧
        s3.2.getPump (PumpAccessory.construct 1 2).pumpNumber = jsIndex speeds 1) ∧
     (∀ (pumpRange : ℤ) (o2 : PumpOracle),
      (PumpAccessory.construct (PumpAccessory.construct 1 2).pumpNumber
          pumpRange).lastSpeed = 2 ∧
      (PumpAccessory.setOn
          (PumpAccessory.construct (PumpAccessory.construct 1 2).pumpNumber pumpRange)
          o2 true).2.getPump (PumpAccessory.construct 1 2).pumpNumber =
        jsIndex speeds 2)) :=
  ⟨⟨by decide, Or.inl rfl⟩,
    setOn_replays_lastSpeed (PumpAccessory.construct 1 2) pumpsAllOff 1
      (by decide) (Or.inl rfl)⟩

/-- C7: the lossy percent round-trip law. For a percentage `q` in [0,100]
on a pump with 1 or 2 speed settings and a recognized pump number (the
oracle returning exactly the level string last written for that pump),
`getRotationSpeed` right after `setRotationSpeed q` reports
`round(q*s/100)*100/s`. -/
theorem rotationSpeed_roundtrip (p : PumpAcc) (o : PumpOracle) (q : ℚ)
    (hs : p.speedSettings = 1 ∨ p.speedSettings = 2)
    (hn : p.pumpNumber = 1 ∨ p.pumpNumber = 2 ∨ p.pumpNumber = 3)
    (h0 : 0 ≤ q) (h1 : q ≤ 100) :
    PumpAccessory.getRotationSpeed (PumpAccessory.setRotationSpeed p o q).1
      (PumpAccessory.setRotationSpeed p o q).2 =
    (jsRound (q * (p.speedSettings : ℚ) / 100) : ℚ) * 100 / (p.speedSettings : ℚ) := by
  simp only [PumpAccessory.setRotationSpeed, PumpAccessory.getRotationSpeed]
  set L := jsRound (q * (p.speedSettings : ℚ) / 100) with hLdef
  have hsQ : (0 : ℚ) < (p.speedSettings : ℚ) := by
    rcases hs with h | h <;> rw [h] <;> norm_num
  have hL0 : 0 ≤ L := by
    rw [hLdef, jsRound]
    refine Int.floor_nonneg.mpr ?_
    have : 0 ≤ q * (p.speedSettings : ℚ) / 100 := by positivity
    linarith
  have hL2 : L ≤ 2 := by
    rw [hLdef, jsRound]
    have hlt : q * (p.speedSettings : ℚ) / 100 + 1 / 2 < 3 := by
      rcases hs with h | h <;> rw [h] <;> push_cast <;> nlinarith
    have h3 : ⌊q * (p.speedSettings : ℚ) / 100 + 1 / 2⌋ < (3 : ℤ) :=
      Int.floor_lt.mpr (by push_cast; exact hlt)
    omega
  rw [getSpeed_setSpeed p o L hn hL0 hL2, setSpeed_fst_speedSettings]
  ring

/-- Witness for C7: pump 1 with two speed settings, percentage 75. -/
theorem rotationSpeed_roundtrip_witness :
    ((PumpAccessory.construct 1 2).speedSettings = 1 ∨
      (PumpAccessory.construct 1 2).speedSettings = 2) ∧
    ((PumpAccessory.construct 1 2).pumpNumber = 1 ∨
      (PumpAccessory.construct 1 2).pumpNumber = 2 ∨
      (PumpAccessory.construct 1 2).pumpNumber = 3) ∧
    (0 : ℚ) ≤ 75 ∧ (75 : ℚ) ≤ 100 ∧
    PumpAccessory.getRotationSpeed
      (PumpAccessory.setRotationSpeed (PumpAccessory.construct 1 2) pumpsAllOff 75).1
      (PumpAccessory.setRotationSpeed (PumpAccessory.construct 1 2) pumpsAllOff 75).2 =
    (jsRound ((75 : ℚ) * ((PumpAccessory.construct 1 2).speedSettings : ℚ) / 100) : ℚ) *
      100 / ((PumpAccessory.construct 1 2).speedSettings : ℚ) :=
  ⟨Or.inr rfl, Or.inl rfl, by norm_num, by norm_num,
    rotationSpeed_roundtrip (PumpAccessory.construct 1 2) pumpsAllOff 75
      (Or.inr rfl) (Or.inl rfl) (by norm_num) (by norm_num)⟩

/-- Counterexample to C6 as stated: for a pump constructed with
`pumpRange = 1`, `setRotationSpeed 50` does **not** resolve to level 0 and
does **not** write `Off` — `Math.round(50 * 1 / 100) = Math.round(0.5) = 1`
(JavaScript rounds ties up), so level 1 is written. -/
theorem setRotationSpeed_half_onespeed_not_off :
    jsRound ((50 : ℚ) * ((PumpAccessory.construct 1 1).speedSettings : ℚ) / 100) ≠ 0 ∧
    (PumpAccessory.setRotationSpeed (PumpAccessory.construct 1 1)
        pumpsAllOff 50).2.pump1 ≠ "Off" := by
  have hs : (PumpAccessory.construct 1 1).speedSettings = 1 := by
    simp [PumpAccessory.construct]
  have hround : jsRound ((50 : ℚ) * ((PumpAccessory.construct 1 1).speedSettings : ℚ) / 100) = 1 := by
    rw [hs]
    have : (50 : ℚ) * ((1 : ℤ) : ℚ) / 100 + 1 / 2 = 1 := by norm_num
    rw [jsRound, this]
    exact Int.floor_one
  refine ⟨by rw [hround]; decide, ?_⟩
  simp only [PumpAccessory.setRotationSpeed, hround]
  simp [PumpAccessory.setSpeed, PumpAccessory.construct, jsIndex, speeds, pumpsAllOff]

/-- C6 amended: for a pump constructed with `pumpRange = 1`,
`setRotationSpeed 50` resolves to level 1 (`Math.round(0.5) = 1` in
JavaScript) and writes the level-1 string `"Low"` to the oracle. -/
theorem setRotationSpeed_half_onespeed_writes_low :
    jsRound ((50 : ℚ) * ((PumpAccessory.construct 1 1).speedSettings : ℚ) / 100) = 1 ∧
    (PumpAccessory.setRotationSpeed (PumpAccessory.construct 1 1)
        pumpsAllOff 50).2.pump1 = "Low" := by
  have hs : (PumpAccessory.construct 1 1).speedSettings = 1 := by
    simp [PumpAccessory.construct]
  have hround : jsRound ((50 : ℚ) * ((PumpAccessory.construct 1 1).speedSettings : ℚ) / 100) = 1 := by
    rw [hs]
    have : (50 : ℚ) * ((1 : ℤ) : ℚ) / 100 + 1 / 2 = 1 := by norm_num
    rw [jsRound, this]
    exact Int.floor_one
  refine ⟨hround, ?_⟩
  simp only [PumpAccessory.setRotationSpeed, hround]
  simp [PumpAccessory.setSpeed, PumpAccessory.construct, jsIndex, speeds, pumpsAllOff]
